import Mathlib

/-!
Shallow embedding of the nanolog logger (package `nanolog`, file `nanolog.go`)
and of the offline inflater (`reader.Reader.Inflate`).

Conventions of the embedding:
* Go byte slices are `List Nat` with every element < 256 (the encoders only
  ever produce values < 256; the decoders take arbitrary `Nat`s and reduce
  them exactly as the Go code reduces `byte`s).
* Go strings handled rune-by-rune are `List Char`; the byte length of a
  string is the length of its UTF-8 encoding, computed by `utf8Bytes`.
* Go panics and returned `error` values are both modelled explicitly; where
  a function can only panic (never return an error), a single
  `Except String` is used and the error message is the panic message.
* Machine integers are `Nat` / `Int` with explicit `% 2 ^ w` at the points
  where the Go code converts or truncates.
-/

set_option maxRecDepth 10000

/-- The subset of `reflect.Kind` values that `parseLogLine` can produce,
with the numeric byte values of Go's `reflect` package (used by
`writeLogDataToFile` when it casts a kind to a byte). -/
inductive Kind where
  | bool | int | int8 | int16 | int32 | int64
  | uint | uint8 | uint16 | uint32 | uint64
  | float32 | float64 | complex64 | complex128
  | string
deriving DecidableEq, Repr

/-- Byte value of a kind: the constant of Go's `reflect.Kind` enumeration
(`Bool=1 ... Uint64=11, Float32=13, Float64=14, Complex64=15,
Complex128=16, String=24`). -/
def Kind.toByte : Kind → Nat
  | .bool => 1
  | .int => 2
  | .int8 => 3
  | .int16 => 4
  | .int32 => 5
  | .int64 => 6
  | .uint => 7
  | .uint8 => 8
  | .uint16 => 9
  | .uint32 => 10
  | .uint64 => 11
  | .float32 => 13
  | .float64 => 14
  | .complex64 => 15
  | .complex128 => 16
  | .string => 24

/-- The opening curly brace character (written via `Char.ofNat` to keep
brace characters out of literals). -/
def braceOpen : Char := Char.ofNat 123

/-- The closing curly brace character. -/
def braceClose : Char := Char.ofNat 125

/-- One format code, starting from the selector character `r` that
`parseLogLine` just read with `next`, with `f` the rest of the input.
Mirrors the `switch r` at nanolog.go:149-265.  Error strings are the
panic messages of the corresponding `logpanic` / `peek` / `next` calls
(`peek` and `next` on an empty string hit `utf8.RuneError` and panic
with the message `Malformed log string`).

Note the `8` cases for `i` and `u`: the source only `peek`s at the `8`
and never calls `next`, so the digit is left in the input. -/
def readCode (r : Char) (f : List Char) : Except String (Kind × List Char) :=
  match r with
  | 'b' => .ok (.bool, f)
  | 's' => .ok (.string, f)
  | 'i' =>
    match f with
    | [] => .error "Malformed log string"
    | c :: rest =>
      match c with
      | '8' => .ok (.int8, f)
      | '1' =>
        match rest with
        | [] => .error "Malformed log string"
        | d :: rest2 => if d = '6' then .ok (.int16, rest2) else .error "Was expecting i16."
      | '3' =>
        match rest with
        | [] => .error "Malformed log string"
        | d :: rest2 => if d = '2' then .ok (.int32, rest2) else .error "Was expecting i32."
      | '6' =>
        match rest with
        | [] => .error "Malformed log string"
        | d :: rest2 => if d = '4' then .ok (.int64, rest2) else .error "Was expecting i64."
      | _ => .ok (.int, f)
  | 'u' =>
    match f with
    | [] => .error "Malformed log string"
    | c :: rest =>
      match c with
      | '8' => .ok (.uint8, f)
      | '1' =>
        match rest with
        | [] => .error "Malformed log string"
        | d :: rest2 => if d = '6' then .ok (.uint16, rest2) else .error "Was expecting u16."
      | '3' =>
        match rest with
        | [] => .error "Malformed log string"
        | d :: rest2 => if d = '2' then .ok (.uint32, rest2) else .error "Was expecting u32."
      | '6' =>
        match rest with
        | [] => .error "Malformed log string"
        | d :: rest2 => if d = '4' then .ok (.uint64, rest2) else .error "Was expecting u64."
      | _ => .ok (.uint, f)
  | 'f' =>
    match f with
    | [] => .error "Malformed log string"
    | c :: rest =>
      match c with
      | '3' =>
        match rest with
        | [] => .error "Malformed log string"
        | d :: rest2 => if d = '2' then .ok (.float32, rest2) else .error "Was expecting f32."
      | '6' =>
        match rest with
        | [] => .error "Malformed log string"
        | d :: rest2 => if d = '4' then .ok (.float64, rest2) else .error "Was expecting f64."
      | _ => .error "Expecting either f32 or f64"
  | 'c' =>
    match f with
    | [] => .error "Malformed log string"
    | c :: rest =>
      match c with
      | '6' =>
        match rest with
        | [] => .error "Malformed log string"
        | d :: rest2 => if d = '4' then .ok (.complex64, rest2) else .error "Was expecting c64."
      | '1' =>
        match rest with
        | [] => .error "Malformed log string"
        | d :: rest2 =>
          if d = '2' then
            match rest2 with
            | [] => .error "Malformed log string"
            | e :: rest3 =>
              if e = '8' then .ok (.complex128, rest3) else .error "Was expecting c128."
          else .error "Was expecting c128."
      | _ => .error "Expecting either c64 or c128"
  | _ => .error "Invalid replace sequence"

/-- The `for len(*f) > 0` loop of `parseLogLine` (nanolog.go:123-272),
with the accumulators `curseg`, `segs`, `kinds` made explicit.  The loop
consumes at least one character per iteration, so a fuel of
`input length + 1` makes the out-of-fuel branch unreachable.

Faithful details from the source:
* a directive pushes `curseg` onto `segs` before the code is read
  (line 136), but the loop exit at end of input does NOT push the
  final `curseg` - the function returns `segs` as is (lines 274-277);
* `peek` on an empty remainder panics with `Malformed log string`. -/
def parseLoop : Nat → List Char → List Char → List (List Char) → List Kind →
    Except String (List Kind × List (List Char))
  | 0, _, _, _, _ => .error "out of fuel"
  | _ + 1, [], _, segs, kinds => .ok (kinds, segs)
  | fuel + 1, c :: rest, curseg, segs, kinds =>
    if c ≠ '%' then parseLoop fuel rest (curseg ++ [c]) segs kinds
    else
      match rest with
      | [] => .error "Malformed log string"
      | c2 :: rest2 =>
        if c2 = '%' then parseLoop fuel rest2 (curseg ++ ['%']) segs kinds
        else
          let segs2 := segs ++ [curseg]
          if c2 = braceOpen then
            match rest2 with
            | [] => .error "Malformed log string"
            | c3 :: rest3 =>
              match readCode c3 rest3 with
              | .error e => .error e
              | .ok (k, rem) =>
                match rem with
                | [] => .error "Malformed log string"
                | c4 :: rem2 =>
                  if c4 = braceClose then parseLoop fuel rem2 [] segs2 (kinds ++ [k])
                  else .error "Missing closing brace character"
          else
            match readCode c2 rest2 with
            | .error e => .error e
            | .ok (k, rem) => parseLoop fuel rem [] segs2 (kinds ++ [k])

/-- `parseLogLine` (nanolog.go:115-277): parses a template into the kind
schedule and the literal segments.  Returns `Except.error` where the Go
code panics. -/
def parseLogLine (gold : List Char) : Except String (List Kind × List (List Char)) :=
  parseLoop (gold.length + 1) gold [] [] []

/-- Little-endian bytes of `binary.LittleEndian.PutUint16`. -/
def le16 (n : Nat) : List Nat := [n % 256, n / 256 % 256]

/-- Little-endian bytes of `binary.LittleEndian.PutUint32`. -/
def le32 (n : Nat) : List Nat :=
  [n % 256, n / 256 % 256, n / 65536 % 256, n / 16777216 % 256]

/-- Little-endian bytes of `binary.LittleEndian.PutUint64`. -/
def le64 (n : Nat) : List Nat :=
  [n % 256, n / 256 % 256, n / 65536 % 256, n / 16777216 % 256,
   n / 4294967296 % 256, n / 1099511627776 % 256,
   n / 281474976710656 % 256, n / 72057594037927936 % 256]

/-- `binary.LittleEndian.PutUint32(b, n)` on the 8-byte scratch slice `b`:
overwrites the first four bytes, keeps the rest. -/
def put32 (b : List Nat) (n : Nat) : List Nat := le32 n ++ b.drop 4

/-- `binary.LittleEndian.PutUint16(b, n)` on the scratch slice `b`. -/
def put16 (b : List Nat) (n : Nat) : List Nat := le16 n ++ b.drop 2

/-- UTF-8 encoding of one character (what Go's `WriteString` emits and
what `len(s)` counts). -/
def charUtf8 (c : Char) : List Nat :=
  let n := c.toNat
  if n < 128 then [n]
  else if n < 2048 then [192 + n / 64, 128 + n % 64]
  else if n < 65536 then [224 + n / 4096, 128 + n / 64 % 64, 128 + n % 64]
  else [240 + n / 262144, 128 + n / 4096 % 64, 128 + n / 64 % 64, 128 + n % 64]

/-- UTF-8 bytes of a string represented as a character list. -/
def utf8Bytes (s : List Char) : List Nat := s.flatMap charUtf8

/-- `writeLogDataToFile` (nanolog.go:300-327): the bytes of one schema
record as this revision writes them - log identifier, number of segments,
one byte per kind, then each segment as a 4-byte length plus raw bytes.
No tag byte is written. -/
def writeLogDataToFile (idx : Nat) (kinds : List Kind) (segs : List (List Char)) : List Nat :=
  le32 idx ++ le32 segs.length ++ kinds.map Kind.toByte ++
    segs.flatMap (fun s => le32 (utf8Bytes s).length ++ utf8Bytes s)

/-- `MaxLoggers` (nanolog.go:29). -/
def MaxLoggers : Nat := 10240

/-- The global registry state: `curLoggersIdx` and the `loggers` slice.
The slice is modelled as a total function that is `[]` (the zero-value
`logger`) at every index not yet written, exactly like the
zero-initialized `make([]logger, MaxLoggers)`. -/
structure RegState where
  count : Nat
  regs : Nat → List Kind

/-- The state at process start: counter 0, all slots zero-valued. -/
def initState : RegState := { count := 0, regs := fun _ => [] }

/-- `AddLogger` (nanolog.go:99-113).  The returned pair is the registry
state after the call together with either the handle and the schema-record
bytes written, or the panic message.  The state is returned even on a
panic because the atomic `AddUint32` on line 101 happens before the
capacity check and before `parseLogLine`, so its effect is observable
even when the call aborts. -/
def AddLogger (s : RegState) (t : List Char) : RegState × Except String (Nat × List Nat) :=
  let idx := s.count
  let s1 : RegState := { s with count := s.count + 1 }
  if idx ≥ MaxLoggers then (s1, .error "Too many loggers")
  else
    match parseLogLine t with
    | .error e => (s1, .error e)
    | .ok (kinds, segs) =>
      ({ count := s1.count, regs := fun i => if i = idx then kinds else s.regs i },
       .ok (idx, writeLogDataToFile idx kinds segs))

/-- A well-typed argument for `Log`.  Float and complex arguments are
carried as their IEEE-754 bit patterns, because the source serializes
exactly those bits (`math.Float32bits` / `math.Float64bits`). -/
inductive Value where
  | bool (b : Bool)
  | int (i : Int)
  | int8 (i : Int)
  | int16 (i : Int)
  | int32 (i : Int)
  | int64 (i : Int)
  | uint (n : Nat)
  | uint8 (n : Nat)
  | uint16 (n : Nat)
  | uint32 (n : Nat)
  | uint64 (n : Nat)
  | float32 (bits : Nat)
  | float64 (bits : Nat)
  | complex64 (rebits imbits : Nat)
  | complex128 (rebits imbits : Nat)
  | string (s : List Char)
deriving DecidableEq

/-- `reflect.ValueOf(args[idx]).Kind()` of a value. -/
def Value.kind : Value → Kind
  | .bool _ => .bool
  | .int _ => .int
  | .int8 _ => .int8
  | .int16 _ => .int16
  | .int32 _ => .int32
  | .int64 _ => .int64
  | .uint _ => .uint
  | .uint8 _ => .uint8
  | .uint16 _ => .uint16
  | .uint32 _ => .uint32
  | .uint64 _ => .uint64
  | .float32 _ => .float32
  | .float64 _ => .float64
  | .complex64 _ _ => .complex64
  | .complex128 _ _ => .complex128
  | .string _ => .string

/-- Two's-complement bit pattern of a signed integer in width `w`
(Go's `uint64(i)` / `uint32(i)` / ... conversions). -/
def intBits (w : Nat) (i : Int) : Nat := (i.emod (2 ^ w)).toNat

/-- The serialization loop of `Log` (nanolog.go:348-463).  `b` is the
8-byte scratch slice that is reused across arguments, and `out` the
`bytes.Buffer`.  Faithful details:
* the per-argument kind check panics on mismatch (line 349);
* the `Float32` and `Complex64` cases call `buf.Write(b)` - the whole
  8-byte slice - after a `PutUint32`, so they emit 8 bytes per 32-bit
  float, the upper 4 being whatever the scratch slice held before;
* `Bool`/`Int8`/`Uint8` use `WriteByte` and leave `b` untouched. -/
def serArgs : List Kind → List Value → List Nat → List Nat → Except String (List Nat)
  | [], _, _, out => .ok out
  | _ :: _, [], _, _ => .error "runtime error: index out of range"
  | k :: ks, v :: vs, b, out =>
    if v.kind ≠ k then .error "Argument type does not match log line"
    else
      match k, v with
      | .bool, .bool bv => serArgs ks vs b (out ++ [if bv then 1 else 0])
      | .string, .string s =>
        let bytes := utf8Bytes s
        let b2 := put32 b bytes.length
        serArgs ks vs b2 (out ++ b2.take 4 ++ bytes)
      | .int, .int i =>
        let b2 := le64 (intBits 64 i)
        serArgs ks vs b2 (out ++ b2)
      | .int8, .int8 i => serArgs ks vs b (out ++ [intBits 8 i])
      | .int16, .int16 i =>
        let b2 := put16 b (intBits 16 i)
        serArgs ks vs b2 (out ++ b2.take 2)
      | .int32, .int32 i =>
        let b2 := put32 b (intBits 32 i)
        serArgs ks vs b2 (out ++ b2.take 4)
      | .int64, .int64 i =>
        let b2 := le64 (intBits 64 i)
        serArgs ks vs b2 (out ++ b2)
      | .uint, .uint n =>
        let b2 := le64 (n % 2 ^ 64)
        serArgs ks vs b2 (out ++ b2)
      | .uint8, .uint8 n => serArgs ks vs b (out ++ [n % 256])
      | .uint16, .uint16 n =>
        let b2 := put16 b (n % 2 ^ 16)
        serArgs ks vs b2 (out ++ b2.take 2)
      | .uint32, .uint32 n =>
        let b2 := put32 b (n % 2 ^ 32)
        serArgs ks vs b2 (out ++ b2.take 4)
      | .uint64, .uint64 n =>
        let b2 := le64 (n % 2 ^ 64)
        serArgs ks vs b2 (out ++ b2)
      | .float32, .float32 bits =>
        let b2 := put32 b (bits % 2 ^ 32)
        serArgs ks vs b2 (out ++ b2)
      | .float64, .float64 bits =>
        let b2 := le64 (bits % 2 ^ 64)
        serArgs ks vs b2 (out ++ b2)
      | .complex64, .complex64 re im =>
        let b2 := put32 b (re % 2 ^ 32)
        let b3 := put32 b2 (im % 2 ^ 32)
        serArgs ks vs b3 (out ++ b2 ++ b3)
      | .complex128, .complex128 re im =>
        let b2 := le64 (re % 2 ^ 64)
        let b3 := le64 (im % 2 ^ 64)
        serArgs ks vs b3 (out ++ b2 ++ b3)
      | _, _ => .error "Invalid Kind in logger"

/-- `Log` (nanolog.go:335-467).  `regs` is the `loggers` slice as a total
function (see `RegState`).  `Except.ok bytes` models a nil returned error
with `bytes` the single block handed to `w.Write` (the sink is healthy);
`Except.error` models the panics (argument count or type mismatch, or the
slice bounds panic for a handle past `MaxLoggers`). -/
def Log (regs : Nat → List Kind) (handle : Nat) (args : List Value) : Except String (List Nat) :=
  if handle ≥ MaxLoggers then .error "runtime error: index out of range"
  else
    let kinds := regs handle
    if kinds.length ≠ args.length then .error "Number of args does not match log line"
    else
      let b0 := put32 (List.replicate 8 0) (handle % 2 ^ 32)
      serArgs kinds args b0 (b0.take 4)


/-- A schema as the inflater stores it (`nanolog.Logger`): the raw kind
bytes and the raw segment bytes exactly as read from the stream. -/
structure GoLogger where
  Kinds : List Nat
  Segs : List (List Nat)

/-- Result of `Reader.Inflate`: normal completion, a returned `error`
value, or a runtime panic, each with the bytes written to the output
writer so far (flushing of the buffered writer to the underlying sink is
not modelled). -/
inductive IR where
  | done (out : List Nat)
  | err (msg : String) (out : List Nat)
  | crashed (msg : String) (out : List Nat)

/-- Result of the per-entry argument loop: continue the outer loop, or
propagate a returned error or a panic. -/
inductive EA where
  | next (input out : List Nat)
  | err (msg : String) (out : List Nat)
  | crashed (msg : String) (out : List Nat)

/-- Textual rendering of float and complex bit patterns (what
`fmt.Fprint` produces for `float32` / `float64` / `complex64` /
`complex128` values).  Go renders these through its shortest-decimal
float formatter, which is out of scope here, so the inflater is
parameterized by the four renderers; no claim in this development
depends on their output. -/
structure FloatRender where
  f32 : Nat → List Nat
  f64 : Nat → List Nat
  c64 : Nat → Nat → List Nat
  c128 : Nat → Nat → List Nat

/-- Read exactly `n` bytes (`io.ReadAtLeast`, or `n` `ReadByte` calls):
`none` models the returned read error when the stream is short. -/
def readN : Nat → List Nat → Option (List Nat × List Nat)
  | 0, input => some ([], input)
  | _ + 1, [] => none
  | n + 1, b :: rest =>
    match readN n rest with
    | none => none
    | some (xs, r) => some (b :: xs, r)

/-- `binary.LittleEndian.Uint32` / `Uint64` over a byte list. -/
def decLE (bs : List Nat) : Nat := bs.foldr (fun b acc => b + 256 * acc) 0

/-- Decimal digits (ASCII bytes) of a natural number; fuel-structured so
it reduces in the kernel.  `renderNat` supplies enough fuel. -/
def natDecimal : Nat → Nat → List Nat
  | 0, _ => []
  | fuel + 1, n => if n < 10 then [48 + n] else natDecimal fuel (n / 10) ++ [48 + n % 10]

/-- `fmt.Fprint` rendering of an unsigned integer. -/
def renderNat (n : Nat) : List Nat := natDecimal (n + 1) n

/-- `fmt.Fprint` rendering of a signed integer (ASCII minus sign then
decimal digits). -/
def renderInt (i : Int) : List Nat :=
  if i < 0 then 45 :: renderNat (-i).toNat else renderNat i.toNat

/-- Two's-complement reading of an unsigned bit pattern in width `w`
(Go's `int64(...)`, `int8(...)`, ... conversions in the inflater). -/
def sint (w : Nat) (n : Nat) : Int :=
  if n < 2 ^ (w - 1) then (n : Int) else (n : Int) - 2 ^ w

/-- The segment-reading loop of the `ETLogLine` branch: `numsegs` times a
4-byte length then that many raw bytes. -/
def readSegs : Nat → List Nat → Option (List (List Nat) × List Nat)
  | 0, input => some ([], input)
  | n + 1, input =>
    match readN 4 input with
    | none => none
    | some (lenb, r1) =>
      match readN (decLE lenb) r1 with
      | none => none
      | some (seg, r2) =>
        match readSegs n r2 with
        | none => none
        | some (segs, r3) => some (seg :: segs, r3)

/-- `loggers[id] = logger` on the inflater's handle map. -/
def mapSet (m : Nat → Option GoLogger) (id : Nat) (v : GoLogger) : Nat → Option GoLogger :=
  fun x => if x = id then some v else m x

/-- The `for i := 1; i < len(logger.Segs); i++` loop of the `ETLogEntry`
branch (part_002:122-271), walking the remaining segments in lockstep
with the kind bytes.  Faithful details:
* indexing `Kinds[i-1]` past the end of `Kinds` is a runtime panic;
* an unknown kind byte is a returned error (`Invalid Kind in logger`);
* the `Bool` case leaves `toWrite` unchanged when the byte is neither 0
  nor 1, so a stale previously rendered value (or nothing) is printed;
* the `String` case copies at most `strlen` bytes with `io.Copy`, whose
  error result the source ignores, and resets `toWrite` to nil;
* after the switch, `toWrite` is printed if non-nil, then the segment. -/
def entryArgs (fr : FloatRender) : List Nat → List (List Nat) → Option (List Nat) →
    List Nat → List Nat → EA
  | _, [], _, input, out => .next input out
  | [], _ :: _, _, _, out => .crashed "runtime error: index out of range" out
  | kb :: krest, seg :: srest, toWrite, input, out =>
    let step : Option (Option (List Nat) × List Nat × List Nat) :=
      match kb with
      | 1 =>
        match input with
        | [] => none
        | v :: r1 =>
          let tw := if v = 0 then some (utf8Bytes "false".toList)
            else if v = 1 then some (utf8Bytes "true".toList) else toWrite
          some (tw, r1, out)
      | 24 =>
        match readN 4 input with
        | none => none
        | some (lenb, r1) =>
          let strlen := decLE lenb
          some (none, r1.drop strlen, out ++ r1.take strlen)
      | 2 =>
        match readN 8 input with
        | none => none
        | some (bs, r1) => some (some (renderInt (sint 64 (decLE bs))), r1, out)
      | 6 =>
        match readN 8 input with
        | none => none
        | some (bs, r1) => some (some (renderInt (sint 64 (decLE bs))), r1, out)
      | 3 =>
        match input with
        | [] => none
        | v :: r1 => some (some (renderInt (sint 8 v)), r1, out)
      | 4 =>
        match readN 2 input with
        | none => none
        | some (bs, r1) => some (some (renderInt (sint 16 (decLE bs))), r1, out)
      | 5 =>
        match readN 4 input with
        | none => none
        | some (bs, r1) => some (some (renderInt (sint 32 (decLE bs))), r1, out)
      | 7 =>
        match readN 8 input with
        | none => none
        | some (bs, r1) => some (some (renderNat (decLE bs)), r1, out)
      | 11 =>
        match readN 8 input with
        | none => none
        | some (bs, r1) => some (some (renderNat (decLE bs)), r1, out)
      | 8 =>
        match input with
        | [] => none
        | v :: r1 => some (some (renderNat v), r1, out)
      | 9 =>
        match readN 2 input with
        | none => none
        | some (bs, r1) => some (some (renderNat (decLE bs)), r1, out)
      | 10 =>
        match readN 4 input with
        | none => none
        | some (bs, r1) => some (some (renderNat (decLE bs)), r1, out)
      | 13 =>
        match readN 4 input with
        | none => none
        | some (bs, r1) => some (some (fr.f32 (decLE bs)), r1, out)
      | 14 =>
        match readN 8 input with
        | none => none
        | some (bs, r1) => some (some (fr.f64 (decLE bs)), r1, out)
      | 15 =>
        match readN 4 input with
        | none => none
        | some (reb, r1) =>
          match readN 4 r1 with
          | none => none
          | some (imb, r2) => some (some (fr.c64 (decLE reb) (decLE imb)), r2, out)
      | 16 =>
        match readN 8 input with
        | none => none
        | some (reb, r1) =>
          match readN 8 r1 with
          | none => none
          | some (imb, r2) => some (some (fr.c128 (decLE reb) (decLE imb)), r2, out)
      | _ => some (some [], [], out)
    match kb with
    | 1 | 2 | 3 | 4 | 5 | 6 | 7 | 8 | 9 | 10 | 11 | 13 | 14 | 15 | 16 | 24 =>
      match step with
      | none => .err "EOF" out
      | some (tw, input2, out2) =>
        let out3 := match tw with
          | none => out2
          | some t => out2 ++ t
        entryArgs fr krest srest tw input2 (out3 ++ seg)
    | _ => .err "Invalid Kind in logger" out

/-- The record loop of `Reader.Inflate` (part_002:48-278).  One fuel unit
per record; every record consumes at least its tag byte, so a fuel of
`input length + 1` makes the out-of-fuel branch unreachable.  `m` is the
`loggers` map, `input` the unread bytes, `out` the bytes written so far.

* tag 1 (`ETLogLine`): read handle and `numsegs` (u32 LE each), then
  `numsegs - 1` kind bytes - `numsegs - 1` is computed in `uint32`
  arithmetic, so `numsegs = 0` wraps around - then `numsegs` segments,
  and store the schema;
* tag 2 (`ETLogEntry`): read the handle, look it up - a missing key
  yields the zero-value `Logger` - write `Segs[0]` (a runtime panic when
  `Segs` is empty), run the argument loop, then write a newline;
* any other tag: return the error `Bad file format`;
* end of input: flush and return normally. -/
def inflLoop (fr : FloatRender) : Nat → (Nat → Option GoLogger) → List Nat → List Nat → IR
  | 0, _, _, out => .err "out of fuel" out
  | _ + 1, _, [], out => .done out
  | fuel + 1, m, tag :: rest, out =>
    match tag with
    | 1 =>
      match readN 4 rest with
      | none => .err "EOF" out
      | some (idb, r1) =>
        match readN 4 r1 with
        | none => .err "EOF" out
        | some (nsb, r2) =>
          let numsegs := decLE nsb
          let kindCount := (numsegs + 4294967295) % 4294967296
          match readN kindCount r2 with
          | none => .err "EOF" out
          | some (kinds, r3) =>
            match readSegs numsegs r3 with
            | none => .err "EOF" out
            | some (segs, r4) =>
              inflLoop fr fuel (mapSet m (decLE idb) ⟨kinds, segs⟩) r4 out
    | 2 =>
      match readN 4 rest with
      | none => .err "EOF" out
      | some (idb, r1) =>
        let lg := (m (decLE idb)).getD ⟨[], []⟩
        match lg.Segs with
        | [] => .crashed "runtime error: index out of range" out
        | s0 :: srest =>
          match entryArgs fr lg.Kinds srest none r1 (out ++ s0) with
          | .next r2 out2 => inflLoop fr fuel m r2 (out2 ++ [10])
          | .err e o => .err e o
          | .crashed e o => .crashed e o
    | _ => .err "Bad file format" out

/-- `Reader.Inflate` (part_002:45-283): run the record loop on the whole
stream with an initially empty handle map. -/
def Inflate (fr : FloatRender) (input : List Nat) : IR :=
  inflLoop fr (input.length + 1) (fun _ => none) input []

/-- A concrete instantiation of the float renderers, used to state closed
theorems about executions that never reach a float rendering. -/
def trivFR : FloatRender :=
  { f32 := fun _ => [], f64 := fun _ => [], c64 := fun _ _ => [], c128 := fun _ _ => [] }

/-- The byte stream produced by the well-typed call sequence
`h := AddLogger("%b"); Log(h, false)` of spec scenario 1: the schema
record bytes followed by the entry record bytes.  The fallback branches
are unreachable (both calls succeed, see `c1_roundtrip_fails_at_tag_byte`). -/
def scenarioC1 : List Nat :=
  match AddLogger initState "%b".toList with
  | (s1, Except.ok (h, schemaBytes)) =>
    match Log s1.regs h [Value.bool false] with
    | Except.ok entryBytes => schemaBytes ++ entryBytes
    | Except.error _ => []
  | (_, Except.error _) => []

/-- The registry state after `n` registrations of the empty template,
starting from the process-start state. -/
def stepN : Nat → RegState
  | 0 => initState
  | n + 1 => (AddLogger (stepN n) "".toList).fst

/-- Every call to `AddLogger` increments the counter, whether it returns
a handle or aborts (the atomic add precedes the capacity check and the
parse). -/
theorem AddLogger_count (s : RegState) (t : List Char) :
    (AddLogger s t).fst.count = s.count + 1 := by
  unfold AddLogger
  by_cases h : s.count ≥ MaxLoggers
  · simp [h]
  · simp [h]
    cases parseLogLine t with
    | error e => simp
    | ok ks => simp

/-- After `n` calls the counter reads `n`. -/
theorem stepN_count (n : Nat) : (stepN n).count = n := by
  induction n with
  | zero => rfl
  | succ n ih => rw [stepN, AddLogger_count, ih]

/-- C1: the claim states that the byte stream of any well-typed
`register`/`log` sequence inflates to the rendered text lines.  On this
code it does not: the logger writes no `EntryType` tag bytes, so the
inflater misreads the very first byte of the schema record (the low byte
of the handle, 0) as a record tag and returns the error
`Bad file format` with no text produced, instead of `false` and a
newline.  The first conjunct pins the 18 bytes the logger emits for
`h := AddLogger("%b"); Log(h, false)`; the second runs the inflater on
them. -/
theorem c1_roundtrip_fails_at_tag_byte :
    scenarioC1 = [0, 0, 0, 0, 1, 0, 0, 0, 1, 0, 0, 0, 0, 0, 0, 0, 0, 0] ∧
    Inflate trivFR scenarioC1 = .err "Bad file format" [] :=
  ⟨rfl, rfl⟩

/-- C2: the claim states `|segments| = |kinds| + 1`, with the empty
template parsing to one empty segment and the template of two percent
signs to one segment holding a percent sign.  On this code the final
accumulated segment is never appended, so both templates parse to zero
segments, and the four-placeholder template from the repository's own
`TestParseLogLine` parses to four segments, not five. -/
theorem c2_parser_drops_trailing_segment :
    parseLogLine "".toList = .ok ([], []) ∧
    parseLogLine "%%".toList = .ok ([], []) ∧
    parseLogLine "foo thing bar thing %i64. Fubar %s foo. sadfasdf %u32 sdfasfasdfasdffds %u32.".toList
      = .ok ([.int64, .string, .uint32, .uint32],
          ["foo thing bar thing ".toList, ". Fubar ".toList,
           " foo. sadfasdf ".toList, " sdfasfasdfasdffds ".toList]) :=
  ⟨rfl, rfl, rfl⟩

/-- C3: the claim states that a schema record starts with the tag byte 1
and that the record for the empty template is 13 bytes.  On this code
`writeLogDataToFile` writes no tag byte, and (because the parser drops
the trailing segment) the empty template is recorded with zero segments:
8 bytes, all zero. -/
theorem c3_schema_record_has_no_tag_byte :
    (AddLogger initState "".toList).snd = .ok (0, writeLogDataToFile 0 [] []) ∧
    writeLogDataToFile 0 [] [] = [0, 0, 0, 0, 0, 0, 0, 0] :=
  ⟨rfl, rfl⟩

/-- C4: the claim states that `log(h, false)` for `h = register("%b")`
emits the 6-byte record `02 hh hh hh hh 00`.  On this code `Log` writes
no tag byte: the record is the 5 bytes `00 00 00 00 00` (and `01` as the
final byte for `true`). -/
theorem c4_entry_record_has_no_tag_byte :
    Log (AddLogger initState "%b".toList).fst.regs 0 [Value.bool false]
      = .ok [0, 0, 0, 0, 0] ∧
    Log (AddLogger initState "%b".toList).fst.regs 0 [Value.bool true]
      = .ok [0, 0, 0, 0, 1] :=
  ⟨rfl, rfl⟩

/-- C5: the claim states a Float32 argument contributes exactly 4 payload
bytes and a Complex64 argument exactly 8.  On this code both cases call
`buf.Write(b)` with the whole 8-byte scratch slice after a `PutUint32`,
so a Float32 argument contributes 8 bytes (the 4 value bytes then 4
stale scratch bytes) and a Complex64 argument 16. -/
theorem c5_float32_payload_is_eight_bytes :
    Log (AddLogger initState "%f32".toList).fst.regs 0 [Value.float32 1]
      = .ok [0, 0, 0, 0, 1, 0, 0, 0, 0, 0, 0, 0] ∧
    Log (AddLogger initState "%c64".toList).fst.regs 0 [Value.complex64 1 2]
      = .ok [0, 0, 0, 0, 1, 0, 0, 0, 0, 0, 0, 0, 2, 0, 0, 0, 0, 0, 0, 0] :=
  ⟨rfl, rfl⟩

/-- C6: the claim states that parsing `s1 + "%i8" + s2` yields segments
`[s1, s2]` with the digit 8 consumed.  On this code the `8` is only
peeked at, never consumed, so it reappears as literal text: parsing
`a%i8b%bc` yields the second segment `8b`, and parsing `a%u8b` leaves
the `8b` in the (dropped) trailing segment, yielding segments `[a]`
rather than `[a, b]`. -/
theorem c6_width_digit_eight_not_consumed :
    parseLogLine "a%i8b%bc".toList
      = .ok ([.int8, .bool], [['a'], ['8', 'b']]) ∧
    parseLogLine "a%u8b".toList = .ok ([.uint8], [['a']]) :=
  ⟨rfl, rfl⟩

/-- C7 counterexample: feeding the inflater a `LogEntry` record whose
handle (0) was never defined does not produce a returned error value:
the zero-value schema has an empty segment list and `Segs[0]` is a
runtime index-out-of-range panic. -/
theorem c7_unknown_handle_crash_counterexample :
    Inflate trivFR [2, 0, 0, 0, 0] = .crashed "runtime error: index out of range" [] :=
  rfl

/-- C7 amended: when the first record of the stream is a `LogEntry`
referencing a handle no `LogLine` record has defined, `Inflate` crashes
with a runtime index-out-of-range panic (it does not return an error
value), and no output is produced. -/
theorem c7_unknown_handle_crashes (fr : FloatRender) (id : Nat) (rest : List Nat) :
    Inflate fr (2 :: (le32 id ++ rest)) = .crashed "runtime error: index out of range" [] :=
  rfl

/-- C8 counterexample: registering the malformed template `%f` from the
initial state aborts but still increments the counter to 1, and the next
successful registration returns handle 1 with its schema record bytes -
whereas the same registration from the untouched initial state returns
handle 0. -/
theorem c8_failed_register_increments_counterexample :
    (AddLogger initState "%f".toList).fst.count = 1 ∧
    (AddLogger (AddLogger initState "%f".toList).fst "".toList).snd
      = .ok (1, [1, 0, 0, 0, 0, 0, 0, 0]) ∧
    (AddLogger initState "".toList).snd = .ok (0, [0, 0, 0, 0, 0, 0, 0, 0]) :=
  ⟨rfl, rfl, rfl⟩

/-- C8 amended: `AddLogger` increments the counter before parsing the
template, so a registration aborted by a template parse error still
consumes a handle slot: the counter is incremented and the next
successful registration receives a handle one greater than the failed
call would have returned. -/
theorem c8_failed_register_consumes_handle (s : RegState) (t t2 : List Char)
    (e : String) (k2 : List Kind) (g2 : List (List Char))
    (hc : s.count + 1 < MaxLoggers)
    (hp : parseLogLine t = .error e)
    (hp2 : parseLogLine t2 = .ok (k2, g2)) :
    (AddLogger s t).fst.count = s.count + 1 ∧
    (AddLogger s t).snd = .error e ∧
    (AddLogger (AddLogger s t).fst t2).snd
      = .ok (s.count + 1, writeLogDataToFile (s.count + 1) k2 g2) := by
  have h1 : ¬ s.count ≥ MaxLoggers := by omega
  have h2 : ¬ s.count + 1 ≥ MaxLoggers := by omega
  refine ⟨?_, ?_, ?_⟩ <;> simp [AddLogger, h1, h2, hp, hp2]

/-- Witness for `c8_failed_register_consumes_handle` at the concrete
inputs of the counterexample. -/
theorem c8_failed_register_consumes_handle_witness :
    (initState.count + 1 < MaxLoggers ∧
      parseLogLine "%f".toList = .error "Malformed log string" ∧
      parseLogLine "".toList = .ok ([], [])) ∧
    ((AddLogger initState "%f".toList).fst.count = initState.count + 1 ∧
      (AddLogger initState "%f".toList).snd = .error "Malformed log string" ∧
      (AddLogger (AddLogger initState "%f".toList).fst "".toList).snd
        = .ok (initState.count + 1, writeLogDataToFile (initState.count + 1) [] [])) :=
  ⟨⟨by decide, rfl, rfl⟩,
    c8_failed_register_consumes_handle initState "%f".toList "".toList
      "Malformed log string" [] [] (by decide) rfl rfl⟩

/-- C9: starting from the initial state and registering the (valid)
empty template repeatedly, each of the first 10240 calls succeeds and
returns handle `i < 10240` together with its schema record, and the
10241st call aborts with the `Too many loggers` panic instead of
returning a handle. -/
theorem c9_capacity_ceiling (i : Nat) (hi : i < 10240) :
    ((AddLogger (stepN i) "".toList).snd = .ok (i, writeLogDataToFile i [] [])
        ∧ i < MaxLoggers) ∧
    (AddLogger (stepN 10240) "".toList).snd = .error "Too many loggers" := by
  have hparse : parseLogLine ([] : List Char) = .ok ([], []) := rfl
  have hle : ¬ MaxLoggers ≤ i := by simp only [MaxLoggers]; omega
  have hge2 : (stepN 10240).count ≥ MaxLoggers := by
    rw [stepN_count]; simp [MaxLoggers]
  refine ⟨⟨?_, ?_⟩, ?_⟩
  · simp [AddLogger, hle, hparse, stepN_count]
  · simpa [MaxLoggers] using hi
  · simp [AddLogger, hge2]

/-- Witness for `c9_capacity_ceiling` at `i = 0`. -/
theorem c9_capacity_ceiling_witness :
    (0 : Nat) < 10240 ∧
    (((AddLogger (stepN 0) "".toList).snd = .ok (0, writeLogDataToFile 0 [] [])
        ∧ 0 < MaxLoggers) ∧
      (AddLogger (stepN 10240) "".toList).snd = .error "Too many loggers") :=
  ⟨by decide, c9_capacity_ceiling 0 (by decide)⟩

/-- C10: calling `Log` with zero arguments on a handle below `MaxLoggers`
whose registry slot still holds the zero-value logger (the handle was
never returned by `AddLogger`) is not detected: the empty kind list
passes the arity check, the record referencing the unregistered handle
(its 4 little-endian handle bytes) is written, and the healthy sink's
nil write result is returned. -/
theorem c10_unregistered_handle_logs_ok (regs : Nat → List Kind) (h : Nat)
    (hzero : regs h = []) (hlt : h < MaxLoggers) :
    Log regs h [] = .ok (le32 h) := by
  have h1 : ¬ h ≥ MaxLoggers := by omega
  have hmod : h % 4294967296 = h := by
    apply Nat.mod_eq_of_lt
    have : MaxLoggers < 4294967296 := by simp [MaxLoggers]
    omega
  simp [Log, h1, hzero, serArgs, put32, le32, hmod]

/-- Witness for `c10_unregistered_handle_logs_ok` at handle 7 with an
all-empty registry. -/
theorem c10_unregistered_handle_logs_ok_witness :
    ((fun _ : Nat => ([] : List Kind)) 7 = [] ∧ 7 < MaxLoggers) ∧
    Log (fun _ : Nat => ([] : List Kind)) 7 [] = .ok (le32 7) :=
  ⟨⟨rfl, by decide⟩, c10_unregistered_handle_logs_ok (fun _ => []) 7 rfl (by decide)⟩
